import Mathlib

/-!
# Verification of the DevTerm plugin system (`devterm_plugin/main.py`)

A shallow embedding of the `PluginManager` from `src/devterm_plugin/main.py`
and proofs of its specified properties.

Modelling conventions:

* Python dicts keyed by strings become association lists
  `List (String × α)` with Python-dict update semantics (`dictInsert`
  overwrites the value in place if the key is present, otherwise appends;
  `dictErase` removes the entry; `List.lookup` is `d[k]` / `k in d`).
* A Python call that may raise becomes a value in `Except String α`;
  the `String` is `str(e)`, the message rendering of the raised exception.
  A possibly-raising exception is therefore an explicit `Except.error msg`
  value (with `msg` possibly empty, as `str(e)` is for `Exception()`).
* `Dict[str, Any]` values become the inductive `Value` below; a JSON-ish
  universe rich enough for every dict the program builds.
* The discovery directory is modelled by `PluginDir`: either absent, or a
  scan-ordered list of files, each of which either fails to import (its
  module raises while loading) or yields the `ToolPlugin` subclasses found
  in it (in `dir(module)` enumeration order).
* Each manager method `m(self, ...)` becomes a state-passing function
  `m : PluginManager → ... → result × PluginManager`.
-/

set_option autoImplicit false

/-- The universe of Python values that appear in the program's string-keyed
dicts (`input_data`, results, schemas). -/
inductive Value where
  | vstr : String → Value
  | vbool : Bool → Value
  | vnat : Nat → Value
  | vlist : List Value → Value
  | vdict : List (String × Value) → Value

/-- A Python `Dict[str, Any]`, as an association list in insertion order. -/
def Dict := List (String × Value)

/-- A live plugin object: an instance of a concrete `ToolPlugin` subclass.
`execute` and `get_schema` may raise (`Except.error msg`, where `msg` is the
`str(...)` rendering of the exception). -/
structure ToolPlugin where
  name : String
  description : String
  category : String
  execute : Dict → Except String Dict
  get_schema : Except String Dict

/-- A concrete `ToolPlugin` subclass (a Python class object): its class-level
`name` attribute, used as the registry key during discovery, and its
constructor `plugin_class()`, which may raise. -/
structure PluginClass where
  name : String
  construct : Except String ToolPlugin

/-- What loading one candidate file does: either the module raises while
being imported (`loadFail`, carrying `str(e)`), or it loads and contributes
the `ToolPlugin` subclasses found in it, in enumeration order. -/
inductive Candidate where
  | loadFail : String → Candidate
  | loads : List PluginClass → Candidate

/-- A file in the plugin directory: its filename and its load behavior. -/
structure FileEntry where
  fname : String
  content : Candidate

/-- The state of the discovery root on disk: absent, or present with a
scan-ordered list of files. -/
inductive PluginDir where
  | absent : PluginDir
  | present : List FileEntry → PluginDir

/-- The `PluginManager` state: the directory it is bound to, the live-instance
table `self.plugins`, and the discovered-definitions table
`self._discovered_plugins` (leading underscore dropped for Lean). -/
structure PluginManager where
  plugin_dir : PluginDir
  plugins : List (String × ToolPlugin)
  discovered_plugins : List (String × PluginClass)

/-- `PluginManager.__init__`: both tables start empty. -/
def PluginManager.init (d : PluginDir) : PluginManager :=
  { plugin_dir := d, plugins := [], discovered_plugins := [] }

/-- Python dict assignment `d[k] = v`: overwrite in place if `k` is present,
append otherwise. -/
def dictInsert {α : Type} (d : List (String × α)) (k : String) (v : α) :
    List (String × α) :=
  match d with
  | [] => [(k, v)]
  | (k', v') :: rest =>
    if k' = k then (k, v) :: rest else (k', v') :: dictInsert rest k v

/-- Python `del d[k]`. -/
def dictErase {α : Type} (d : List (String × α)) (k : String) :
    List (String × α) :=
  d.filter (fun p => p.1 ≠ k)

/-- How many entries of `d` carry key `k` (a real dict always has 0 or 1). -/
def countKey {α : Type} (d : List (String × α)) (k : String) : Nat :=
  d.countP (fun p => p.1 == k)

/-- Well-formedness of a dict model: no duplicate keys. Every table reachable
from an initial `PluginManager` state satisfies this. -/
def keysNodup {α : Type} (d : List (String × α)) : Prop :=
  (d.map Prod.fst).Nodup

instance {α : Type} (d : List (String × α)) : Decidable (keysNodup d) := by
  unfold keysNodup; infer_instance

/-- `file.name.endswith(".py")`: the filter implied by `glob("*.py")`. -/
def isPyFile (fname : String) : Bool :=
  List.isSuffixOf ".py".data fname.data

/-- `file.name.startswith("_")`. -/
def isUnderscoreFile (fname : String) : Bool :=
  List.isPrefixOf "_".data fname.data

/-- One iteration of the discovery loop body over the accumulator
(discovered-definitions table, local `discovered` name list): files starting
with `_` are skipped; a module that raises while loading is reported and
skipped; otherwise every `ToolPlugin` subclass found is registered under its
class-level `name` (overwriting any previous entry) and its name appended. -/
def scanFile (acc : List (String × PluginClass) × List String)
    (f : FileEntry) : List (String × PluginClass) × List String :=
  if isUnderscoreFile f.fname then acc
  else
    match f.content with
    | Candidate.loadFail _ => acc
    | Candidate.loads cls =>
      cls.foldl (fun a c => (dictInsert a.1 c.name c, a.2 ++ [c.name])) acc

/-- `PluginManager.discover_plugins`: if the directory does not exist it is
created and the empty list returned; otherwise every `*.py` file is scanned
in order and the local `discovered` list of names is returned. -/
def discover_plugins (st : PluginManager) : List String × PluginManager :=
  match st.plugin_dir with
  | PluginDir.absent => ([], { st with plugin_dir := PluginDir.present [] })
  | PluginDir.present files =>
    let r := (files.filter (fun f => isPyFile f.fname)).foldl scanFile
      (st.discovered_plugins, [])
    (r.2, { st with discovered_plugins := r.1 })

/-- `PluginManager.load_plugin`: success immediately if already live; failure
if unknown; otherwise construct the instance, catching a constructor fault as
a `false` return. -/
def load_plugin (st : PluginManager) (name : String) : Bool × PluginManager :=
  if (List.lookup name st.plugins).isSome then (true, st)
  else
    match List.lookup name st.discovered_plugins with
    | none => (false, st)
    | some plugin_class =>
      match plugin_class.construct with
      | Except.ok inst =>
        (true, { st with plugins := dictInsert st.plugins name inst })
      | Except.error _ => (false, st)

/-- `PluginManager.unload_plugin`: delete from the live table if present and
report whether it was. -/
def unload_plugin (st : PluginManager) (name : String) :
    Bool × PluginManager :=
  if (List.lookup name st.plugins).isSome then
    (true, { st with plugins := dictErase st.plugins name })
  else (false, st)

/-- The failure result `{"success": False, "error": str(e)}` built by
`execute_plugin`'s containment handler. -/
def failureResult (e : String) : Dict :=
  [("success", Value.vbool false), ("error", Value.vstr e)]

/-- `PluginManager.execute_plugin`: implicit load when not live, `None` when
that fails, and the plugin's own `execute` run under containment — a fault
becomes `failureResult str(e)`.  The return type `Option Dict` (no
`Except` layer) is the containment: no fault escapes this function. -/
def execute_plugin (st : PluginManager) (name : String) (input_data : Dict) :
    Option Dict × PluginManager :=
  match (if (List.lookup name st.plugins).isSome then (true, st)
         else load_plugin st name) with
  | (false, st') => (none, st')
  | (true, st') =>
    match List.lookup name st'.plugins with
    | none => (none, st')
    | some p =>
      match p.execute input_data with
      | Except.ok r => (some r, st')
      | Except.error e => (some (failureResult e), st')

/-- `PluginManager.get_plugin_schema`: same implicit-load logic, but the
delegated `get_schema()` call is *not* wrapped in a handler — the outer
`Except` layer records a fault propagating to the caller. -/
def get_plugin_schema (st : PluginManager) (name : String) :
    Except String (Option Dict) × PluginManager :=
  match (if (List.lookup name st.plugins).isSome then (true, st)
         else load_plugin st name) with
  | (false, st') => (Except.ok none, st')
  | (true, st') =>
    match List.lookup name st'.plugins with
    | none => (Except.ok none, st')
    | some p =>
      match p.get_schema with
      | Except.ok s => (Except.ok (some s), st')
      | Except.error e => (Except.error e, st')

/-- `PluginManager.list_plugins`. -/
def list_plugins (st : PluginManager) : List Dict :=
  st.plugins.map (fun p =>
    [("name", Value.vstr p.1), ("description", Value.vstr p.2.description),
     ("category", Value.vstr p.2.category)])

/-- `input_data.get("text", "")` followed by use as a string: a missing key
yields `""`; a non-string value makes the subsequent string method raise
(`AttributeError`), modelled as a fault. -/
def getText (input_data : Dict) : Except String String :=
  match List.lookup "text" input_data with
  | none => Except.ok ""
  | some (Value.vstr s) => Except.ok s
  | some _ => Except.error "AttributeError"

/-- Python `str.upper()` on the ASCII range. -/
def pyUpper (s : String) : String :=
  String.mk (s.data.map Char.toUpper)

/-- Python `s[::-1]`. -/
def pyReverse (s : String) : String :=
  String.mk s.data.reverse

/-- The `UppercasePlugin()` instance. -/
def UppercasePluginImpl : ToolPlugin :=
  { name := "uppercase"
    description := "Convert text to uppercase"
    category := "Text"
    execute := fun input_data =>
      match getText input_data with
      | Except.ok text =>
        Except.ok [("success", Value.vbool true),
                   ("output", Value.vstr (pyUpper text))]
      | Except.error e => Except.error e
    get_schema :=
      Except.ok
        [("inputs", Value.vlist [Value.vdict
            [("name", Value.vstr "text"), ("type", Value.vstr "string"),
             ("label", Value.vstr "Input Text")]]),
         ("outputs", Value.vlist [Value.vdict
            [("name", Value.vstr "output"), ("type", Value.vstr "string")]])] }

/-- The `UppercasePlugin` class: its constructor never raises. -/
def UppercasePlugin : PluginClass :=
  { name := "uppercase", construct := Except.ok UppercasePluginImpl }

/-- The `ReversePlugin()` instance. -/
def ReversePluginImpl : ToolPlugin :=
  { name := "reverse"
    description := "Reverse text"
    category := "Text"
    execute := fun input_data =>
      match getText input_data with
      | Except.ok text =>
        Except.ok [("success", Value.vbool true),
                   ("output", Value.vstr (pyReverse text))]
      | Except.error e => Except.error e
    get_schema :=
      Except.ok
        [("inputs", Value.vlist [Value.vdict
            [("name", Value.vstr "text"), ("type", Value.vstr "string"),
             ("label", Value.vstr "Input Text")]]),
         ("outputs", Value.vlist [Value.vdict
            [("name", Value.vstr "output"), ("type", Value.vstr "string")]])] }

/-- The `ReversePlugin` class. -/
def ReversePlugin : PluginClass :=
  { name := "reverse", construct := Except.ok ReversePluginImpl }

/-! ## Dictionary lemmas -/

theorem lookup_cons_eq {α : Type} (k : String) (v : α)
    (tl : List (String × α)) : List.lookup k ((k, v) :: tl) = some v := by
  simp [List.lookup]

theorem lookup_cons_ne {α : Type} (a k : String) (v : α)
    (tl : List (String × α)) (h : a ≠ k) :
    List.lookup a ((k, v) :: tl) = List.lookup a tl := by
  have hb : (a == k) = false := by simp [h]
  simp [List.lookup, hb]

theorem lookup_dictInsert_self {α : Type} (d : List (String × α)) (k : String)
    (v : α) : List.lookup k (dictInsert d k v) = some v := by
  induction d with
  | nil => simp [dictInsert, lookup_cons_eq]
  | cons hd tl ih =>
    obtain ⟨k', v'⟩ := hd
    by_cases h : k' = k
    · simp [dictInsert, h, lookup_cons_eq]
    · rw [show dictInsert ((k', v') :: tl) k v = (k', v') :: dictInsert tl k v
        from by simp [dictInsert, h]]
      rw [lookup_cons_ne k k' v' _ (Ne.symm h)]
      exact ih

theorem lookup_dictInsert_ne {α : Type} (d : List (String × α)) (k a : String)
    (v : α) (h : a ≠ k) :
    List.lookup a (dictInsert d k v) = List.lookup a d := by
  induction d with
  | nil =>
    rw [show dictInsert ([] : List (String × α)) k v = [(k, v)] from rfl,
      lookup_cons_ne a k v [] h]
  | cons hd tl ih =>
    obtain ⟨k', v'⟩ := hd
    by_cases hk : k' = k
    · subst hk
      rw [show dictInsert ((k', v') :: tl) k' v = (k', v) :: tl
          from by simp [dictInsert]]
      rw [lookup_cons_ne a k' v tl h, lookup_cons_ne a k' v' tl h]
    · rw [show dictInsert ((k', v') :: tl) k v = (k', v') :: dictInsert tl k v
        from by simp [dictInsert, hk]]
      by_cases ha : a = k'
      · subst ha; rw [lookup_cons_eq, lookup_cons_eq]
      · rw [lookup_cons_ne a k' v' _ ha, lookup_cons_ne a k' v' tl ha]
        exact ih

theorem mem_keys_dictInsert {α : Type} (d : List (String × α)) (k a : String)
    (v : α) :
    a ∈ (dictInsert d k v).map Prod.fst ↔ a = k ∨ a ∈ d.map Prod.fst := by
  induction d with
  | nil => simp [dictInsert]
  | cons hd tl ih =>
    obtain ⟨k', v'⟩ := hd
    by_cases h : k' = k
    · subst h; simp [dictInsert]
    · simp only [dictInsert, h, if_false, List.map_cons, List.mem_cons, ih]
      tauto

theorem keysNodup_dictInsert {α : Type} (d : List (String × α)) (k : String)
    (v : α) (h : keysNodup d) : keysNodup (dictInsert d k v) := by
  induction d with
  | nil => simp [dictInsert, keysNodup]
  | cons hd tl ih =>
    obtain ⟨k', v'⟩ := hd
    unfold keysNodup at h ⊢
    simp only [List.map_cons, List.nodup_cons] at h
    by_cases hk : k' = k
    · subst hk
      rw [show dictInsert ((k', v') :: tl) k' v = (k', v) :: tl
          from by simp [dictInsert]]
      simpa using h
    · rw [show dictInsert ((k', v') :: tl) k v = (k', v') :: dictInsert tl k v
        from by simp [dictInsert, hk]]
      simp only [List.map_cons, List.nodup_cons]
      refine ⟨fun hmem => ?_, ih h.2⟩
      rw [mem_keys_dictInsert] at hmem
      rcases hmem with rfl | hmem
      · exact hk rfl
      · exact h.1 hmem

theorem mem_keys_of_lookup_isSome {α : Type} (d : List (String × α))
    (k : String) (h : (List.lookup k d).isSome) : k ∈ d.map Prod.fst := by
  induction d with
  | nil => simp [List.lookup] at h
  | cons hd tl ih =>
    obtain ⟨k', v'⟩ := hd
    by_cases hk : k = k'
    · subst hk; simp
    · rw [lookup_cons_ne k k' v' tl hk] at h
      simp [ih h]

theorem countKey_eq_zero_of_not_mem_keys {α : Type} (d : List (String × α))
    (k : String) (h : k ∉ d.map Prod.fst) : countKey d k = 0 := by
  simp only [countKey]
  rw [List.countP_eq_zero]
  intro p hp
  simp only [beq_iff_eq]
  intro hEq
  exact h (List.mem_map.mpr ⟨p, hp, hEq⟩)

theorem countKey_eq_one_of_lookup_some {α : Type} (d : List (String × α))
    (k : String) (hnd : keysNodup d) (hs : (List.lookup k d).isSome) :
    countKey d k = 1 := by
  induction d with
  | nil => simp [List.lookup] at hs
  | cons hd tl ih =>
    obtain ⟨k', v'⟩ := hd
    unfold keysNodup at hnd
    simp only [List.map_cons, List.nodup_cons] at hnd
    by_cases hk : k' = k
    · subst hk
      have hz : countKey tl k' = 0 :=
        countKey_eq_zero_of_not_mem_keys tl k' hnd.1
      simp only [countKey, List.countP_cons] at hz ⊢
      simp [hz]
    · rw [lookup_cons_ne k k' v' tl (fun hEq => hk hEq.symm)] at hs
      have h1 := ih hnd.2 hs
      simp only [countKey, List.countP_cons] at h1 ⊢
      simp [h1, hk]

theorem lookup_dictErase_self {α : Type} (d : List (String × α))
    (k : String) : List.lookup k (dictErase d k) = none := by
  induction d with
  | nil => simp [dictErase, List.lookup]
  | cons hd tl ih =>
    obtain ⟨k', v'⟩ := hd
    by_cases hk : k' = k
    · subst hk
      simpa [dictErase, List.filter_cons] using ih
    · rw [show dictErase ((k', v') :: tl) k = (k', v') :: dictErase tl k
        from by simp [dictErase, List.filter_cons, hk]]
      rw [lookup_cons_ne k k' v' _ (fun hEq => hk hEq.symm)]
      exact ih

theorem scanFile_loadFail (acc : List (String × PluginClass) × List String)
    (fn e : String) : scanFile acc ⟨fn, Candidate.loadFail e⟩ = acc := by
  simp only [scanFile]
  split <;> rfl

/-! ## Concrete states used by witnesses -/

/-- A plugin whose `execute` and `get_schema` both raise (with nonempty
messages). -/
def BoomPluginImpl : ToolPlugin :=
  { name := "boom"
    description := "Always raises"
    category := "Test"
    execute := fun _ => Except.error "kaboom"
    get_schema := Except.error "schema fault" }

/-- A plugin whose `execute` raises an exception with an empty message,
as `raise Exception()` does (`str(e)` is then `""`). -/
def EmptyMsgPluginImpl : ToolPlugin :=
  { name := "empty"
    description := "Raises with an empty message"
    category := "Test"
    execute := fun _ => Except.error ""
    get_schema := Except.ok [] }

/-- A manager with one live raising plugin and one discovered definition. -/
def demoManager : PluginManager :=
  { plugin_dir := PluginDir.present []
    plugins := [("boom", BoomPluginImpl)]
    discovered_plugins := [("uppercase", UppercasePlugin)] }

/-- A manager whose only live plugin raises with an empty message. -/
def emptyMsgManager : PluginManager :=
  { plugin_dir := PluginDir.present []
    plugins := [("empty", EmptyMsgPluginImpl)]
    discovered_plugins := [] }

/-- A manager with a not-yet-loaded discovered definition. -/
def freshManager : PluginManager :=
  { plugin_dir := PluginDir.present []
    plugins := []
    discovered_plugins := [("uppercase", UppercasePlugin)] }

/-- A manager where `uppercase` is both live and still in `definitions`. -/
def reloadManager : PluginManager :=
  { plugin_dir := PluginDir.present []
    plugins := [("uppercase", UppercasePluginImpl)]
    discovered_plugins := [("uppercase", UppercasePlugin)] }

/-! ## Claim theorems -/

/-- C1: `execute_plugin` implements the two-tier error signaling. A name that
is neither live nor loadable yields no result (`none`); a fault raised by a
live plugin's `execute` — whether it was already live or implicitly loaded —
is caught at the Manager boundary and converted to the structured failure
result `{success: false, error: <message>}`. The return type `Option Dict`
carries no fault channel at all, so no fault from the plugin's `execute` can
propagate to the caller. -/
theorem execute_plugin_two_tier (st : PluginManager) (name : String)
    (input_data : Dict) :
    (List.lookup name st.plugins = none → (load_plugin st name).1 = false →
      (execute_plugin st name input_data).1 = none) ∧
    (∀ p e, List.lookup name st.plugins = some p →
      p.execute input_data = Except.error e →
      (execute_plugin st name input_data).1 = some (failureResult e)) ∧
    (∀ c p e, List.lookup name st.plugins = none →
      List.lookup name st.discovered_plugins = some c →
      c.construct = Except.ok p →
      p.execute input_data = Except.error e →
      (execute_plugin st name input_data).1 = some (failureResult e)) := by
  refine ⟨?_, ?_, ?_⟩
  · intro h1 h2
    rcases hlp : load_plugin st name with ⟨b, st2⟩
    rw [hlp] at h2
    simp only at h2
    subst h2
    simp [execute_plugin, h1, hlp]
  · intro p e h1 h2
    simp [execute_plugin, h1, h2]
  · intro c p e h1 hc hcons hex
    have hload : load_plugin st name =
        (true, { st with plugins := dictInsert st.plugins name p }) := by
      simp [load_plugin, h1, hc, hcons]
    simp [execute_plugin, h1, hload, lookup_dictInsert_self, hex]

/-- Witness for C1: on `demoManager`, an unknown name gives no result, and
the live raising plugin gives the structured failure result. -/
theorem execute_plugin_two_tier_witness :
    (execute_plugin demoManager "missing" []).1 = none ∧
    (execute_plugin demoManager "boom" []).1 = some (failureResult "kaboom") :=
  ⟨(execute_plugin_two_tier demoManager "missing" []).1 rfl rfl,
   (execute_plugin_two_tier demoManager "boom" []).2.1 BoomPluginImpl
     "kaboom" rfl rfl⟩

/-- C2: `get_plugin_schema` has the same implicit-load behavior as
`execute_plugin` and returns no result (`Except.ok none`) for every name that
cannot be resolved; but it applies no failure containment: a fault raised by
the resolved plugin's `get_schema` — whether the plugin was already live or
implicitly loaded — propagates to the caller (`Except.error`). -/
theorem get_plugin_schema_uncontained (st : PluginManager) (name : String) :
    (List.lookup name st.plugins = none → (load_plugin st name).1 = false →
      (get_plugin_schema st name).1 = Except.ok none) ∧
    (∀ p e, List.lookup name st.plugins = some p →
      p.get_schema = Except.error e →
      (get_plugin_schema st name).1 = Except.error e) ∧
    (∀ c p e, List.lookup name st.plugins = none →
      List.lookup name st.discovered_plugins = some c →
      c.construct = Except.ok p →
      p.get_schema = Except.error e →
      (get_plugin_schema st name).1 = Except.error e) := by
  refine ⟨?_, ?_, ?_⟩
  · intro h1 h2
    rcases hlp : load_plugin st name with ⟨b, st2⟩
    rw [hlp] at h2
    simp only at h2
    subst h2
    simp [get_plugin_schema, h1, hlp]
  · intro p e h1 h2
    simp [get_plugin_schema, h1, h2]
  · intro c p e h1 hc hcons hsc
    have hload : load_plugin st name =
        (true, { st with plugins := dictInsert st.plugins name p }) := by
      simp [load_plugin, h1, hc, hcons]
    simp [get_plugin_schema, h1, hload, lookup_dictInsert_self, hsc]

/-- Witness for C2: on `demoManager`, an unknown name gives no result, and
the live plugin's schema fault propagates. -/
theorem get_plugin_schema_uncontained_witness :
    (get_plugin_schema demoManager "missing").1 = Except.ok none ∧
    (get_plugin_schema demoManager "boom").1 = Except.error "schema fault" :=
  ⟨(get_plugin_schema_uncontained demoManager "missing").1 rfl rfl,
   (get_plugin_schema_uncontained demoManager "boom").2.1 BoomPluginImpl
     "schema fault" rfl rfl⟩

/-- C8: `unload_plugin` removes `name` from the live table if present,
returns whether it was present, and leaves the definitions table (and the
directory) completely unchanged. -/
theorem unload_plugin_spec (st : PluginManager) (name : String) :
    (unload_plugin st name).1 = (List.lookup name st.plugins).isSome ∧
    List.lookup name ((unload_plugin st name).2).plugins = none ∧
    ((unload_plugin st name).2).plugins =
      (if (List.lookup name st.plugins).isSome then dictErase st.plugins name
       else st.plugins) ∧
    ((unload_plugin st name).2).discovered_plugins = st.discovered_plugins ∧
    ((unload_plugin st name).2).plugin_dir = st.plugin_dir := by
  cases h : List.lookup name st.plugins with
  | none => simp [unload_plugin, h]
  | some p => simp [unload_plugin, h, lookup_dictErase_self]

/-- C7: discovery on an absent directory creates the (empty) directory,
returns the empty name sequence, and leaves both tables unchanged. -/
theorem discover_plugins_absent_dir (st : PluginManager)
    (h : st.plugin_dir = PluginDir.absent) :
    (discover_plugins st).1 = [] ∧
    ((discover_plugins st).2).plugin_dir = PluginDir.present [] ∧
    ((discover_plugins st).2).discovered_plugins = st.discovered_plugins ∧
    ((discover_plugins st).2).plugins = st.plugins := by
  simp [discover_plugins, h]

/-- Witness for C7 at a freshly constructed manager with no directory. -/
theorem discover_plugins_absent_dir_witness :
    (discover_plugins (PluginManager.init PluginDir.absent)).1 = [] ∧
    ((discover_plugins (PluginManager.init PluginDir.absent)).2).plugin_dir =
      PluginDir.present [] ∧
    ((discover_plugins (PluginManager.init PluginDir.absent)).2).discovered_plugins =
      (PluginManager.init PluginDir.absent).discovered_plugins ∧
    ((discover_plugins (PluginManager.init PluginDir.absent)).2).plugins =
      (PluginManager.init PluginDir.absent).plugins :=
  discover_plugins_absent_dir (PluginManager.init PluginDir.absent) rfl

/-- C3: `load_plugin` is idempotent and preserves the at-most-one-live-
instance invariant: a name already live returns success immediately with the
state unchanged (no new instance is constructed), and after a successful load
a second call returns success with the state unchanged, leaving exactly one
live instance for that name. -/
theorem load_plugin_idempotent (st : PluginManager) (name : String)
    (hnd : keysNodup st.plugins) :
    ((List.lookup name st.plugins).isSome = true →
      load_plugin st name = (true, st)) ∧
    ((load_plugin st name).1 = true →
      load_plugin ((load_plugin st name).2) name =
        (true, (load_plugin st name).2) ∧
      countKey ((load_plugin st name).2).plugins name = 1) := by
  constructor
  · intro h
    simp [load_plugin, h]
  · intro h
    cases hl : List.lookup name st.plugins with
    | some p =>
      have hload : load_plugin st name = (true, st) := by simp [load_plugin, hl]
      rw [hload]
      refine ⟨by simp [load_plugin, hl], ?_⟩
      exact countKey_eq_one_of_lookup_some st.plugins name hnd
        (by rw [hl]; rfl)
    | none =>
      cases hd : List.lookup name st.discovered_plugins with
      | none =>
        rw [show load_plugin st name = (false, st)
          from by simp [load_plugin, hl, hd]] at h
        simp at h
      | some c =>
        cases hc : c.construct with
        | error e =>
          rw [show load_plugin st name = (false, st)
            from by simp [load_plugin, hl, hd, hc]] at h
          simp at h
        | ok p =>
          have hload : load_plugin st name =
              (true, { st with plugins := dictInsert st.plugins name p }) := by
            simp [load_plugin, hl, hd, hc]
          rw [hload]
          constructor
          · simp [load_plugin, lookup_dictInsert_self]
          · exact countKey_eq_one_of_lookup_some _ name
              (keysNodup_dictInsert st.plugins name p hnd)
              (by rw [lookup_dictInsert_self]; rfl)

/-- Witness for C3: loading `uppercase` twice on `freshManager` succeeds both
times and leaves exactly one live instance. -/
theorem load_plugin_idempotent_witness :
    (load_plugin freshManager "uppercase").1 = true ∧
    load_plugin ((load_plugin freshManager "uppercase").2) "uppercase" =
      (true, (load_plugin freshManager "uppercase").2) ∧
    countKey ((load_plugin freshManager "uppercase").2).plugins
      "uppercase" = 1 :=
  ⟨rfl, (load_plugin_idempotent freshManager "uppercase" (by decide)).2 rfl⟩

/-- C4 counterexample: the claim says the `error` field of a failure result
is never the empty string, but `str(e)` of an exception raised with no
message is `""`: on `emptyMsgManager` the failure result binds `error` to the
empty string. -/
theorem execute_plugin_empty_error_counterexample :
    (execute_plugin emptyMsgManager "empty" []).1 =
      some [("success", Value.vbool false), ("error", Value.vstr "")] ∧
    ("" : String).length = 0 :=
  ⟨rfl, rfl⟩

/-- C4 amended: for every live plugin whose `execute` raises, the returned
failure result binds `success` to `false` and `error` to exactly the fault's
message string — which is nonempty only when the message is, and is the
empty string for an exception raised with an empty message. -/
theorem execute_plugin_error_is_message (st : PluginManager) (name : String)
    (input_data : Dict) (p : ToolPlugin) (e : String)
    (h1 : List.lookup name st.plugins = some p)
    (h2 : p.execute input_data = Except.error e) :
    (execute_plugin st name input_data).1 = some (failureResult e) ∧
    List.lookup "success" (failureResult e) = some (Value.vbool false) ∧
    List.lookup "error" (failureResult e) = some (Value.vstr e) := by
  refine ⟨by simp [execute_plugin, h1, h2], ?_, ?_⟩
  · simp [failureResult, List.lookup]
  · simp [failureResult, List.lookup]

/-- Witness for C4's amended claim, at the empty-message raising plugin. -/
theorem execute_plugin_error_is_message_witness :
    (execute_plugin emptyMsgManager "empty" []).1 = some (failureResult "") ∧
    List.lookup "success" (failureResult "") = some (Value.vbool false) ∧
    List.lookup "error" (failureResult "") = some (Value.vstr "") :=
  execute_plugin_error_is_message emptyMsgManager "empty" []
    EmptyMsgPluginImpl "" rfl rfl

/-- C9: for a name still present in the definitions table (with a
constructible definition), `unload_plugin` followed immediately by
`execute_plugin` returns a result by implicitly reloading from the
definitions table, and the result is exactly what a freshly constructed
instance produces for the same input (under the Manager's containment). -/
theorem unload_then_execute_plugin (st : PluginManager) (name : String)
    (input_data : Dict) (c : PluginClass) (p : ToolPlugin)
    (hdef : List.lookup name st.discovered_plugins = some c)
    (hcons : c.construct = Except.ok p) :
    (execute_plugin ((unload_plugin st name).2) name input_data).1 =
      (match p.execute input_data with
       | Except.ok r => some r
       | Except.error e => some (failureResult e)) ∧
    (execute_plugin ((unload_plugin st name).2) name input_data).1 ≠
      none := by
  have hnl : List.lookup name ((unload_plugin st name).2).plugins = none := by
    cases h : List.lookup name st.plugins with
    | none => simp [unload_plugin, h]
    | some q => simp [unload_plugin, h, lookup_dictErase_self]
  have hdisc : ((unload_plugin st name).2).discovered_plugins =
      st.discovered_plugins := by
    cases h : List.lookup name st.plugins with
    | none => simp [unload_plugin, h]
    | some q => simp [unload_plugin, h]
  have hload : load_plugin ((unload_plugin st name).2) name =
      (true, { (unload_plugin st name).2 with
        plugins := dictInsert ((unload_plugin st name).2).plugins name p }) := by
    simp [load_plugin, hnl, hdisc, hdef, hcons]
  constructor
  · cases hpe : p.execute input_data with
    | ok r => simp [execute_plugin, hnl, hload, lookup_dictInsert_self, hpe]
    | error e => simp [execute_plugin, hnl, hload, lookup_dictInsert_self, hpe]
  · cases hpe : p.execute input_data with
    | ok r => simp [execute_plugin, hnl, hload, lookup_dictInsert_self, hpe]
    | error e => simp [execute_plugin, hnl, hload, lookup_dictInsert_self, hpe]

/-- Witness for C9: unloading the live `uppercase` and executing it again
reproduces the fresh instance's output. -/
theorem unload_then_execute_plugin_witness :
    (execute_plugin ((unload_plugin reloadManager "uppercase").2) "uppercase"
      [("text", Value.vstr "hi")]).1 =
      some [("success", Value.vbool true), ("output", Value.vstr "HI")] := by
  have h := (unload_then_execute_plugin reloadManager "uppercase"
    [("text", Value.vstr "hi")] UppercasePlugin UppercasePluginImpl rfl rfl).1
  exact h.trans rfl

theorem lookup_eq_of_mem_of_nodup {α : Type} (d : List (String × α))
    (k : String) (x : α) (hnd : keysNodup d) (hm : (k, x) ∈ d) :
    List.lookup k d = some x := by
  induction d with
  | nil => simp at hm
  | cons hd tl ih =>
    obtain ⟨k', v'⟩ := hd
    unfold keysNodup at hnd
    simp only [List.map_cons, List.nodup_cons] at hnd
    rcases List.mem_cons.mp hm with hEq | hm'
    · obtain ⟨rfl, rfl⟩ := Prod.mk.injEq .. ▸ hEq
      exact lookup_cons_eq k x tl
    · have hk : k ≠ k' := by
        rintro rfl
        exact hnd.1 (List.mem_map.mpr ⟨(k, x), hm', rfl⟩)
      rw [lookup_cons_ne k k' v' tl hk]
      exact ih hnd.2 hm'

/-- A manager state whose discovery root holds the given files. -/
def withDir (st : PluginManager) (files : List FileEntry) : PluginManager :=
  { st with plugin_dir := PluginDir.present files }

/-- The two-candidate directory layout used for the duplicate-name claims:
one file declaring `c1`, a later-scanned file declaring `c2`. -/
def twoFiles (fn1 fn2 : String) (c1 c2 : PluginClass) : List FileEntry :=
  [⟨fn1, Candidate.loads [c1]⟩, ⟨fn2, Candidate.loads [c2]⟩]

/-- Evaluating discovery over a directory with exactly two loadable candidate
files, each contributing one plugin class. -/
theorem discover_two_loads_eval (st : PluginManager) (c1 c2 : PluginClass)
    (fn1 fn2 : String)
    (h1p : isPyFile fn1 = true) (h1u : isUnderscoreFile fn1 = false)
    (h2p : isPyFile fn2 = true) (h2u : isUnderscoreFile fn2 = false) :
    (discover_plugins (withDir st (twoFiles fn1 fn2 c1 c2))).1 =
      [c1.name, c2.name] ∧
    ((discover_plugins (withDir st (twoFiles fn1 fn2 c1 c2))).2).discovered_plugins =
      dictInsert (dictInsert st.discovered_plugins c1.name c1) c2.name c2 := by
  constructor <;>
    simp [discover_plugins, withDir, twoFiles, List.filter_cons, h1p, h2p,
      scanFile, h1u, h2u]

/-- C5: a candidate file that fails to load is skipped and discovery
continues: inserting a faulty candidate anywhere into the scan sequence
changes neither the returned name sequence nor the resulting definitions
table — so one faulty candidate never aborts `discover_plugins` nor prevents
later candidates from contributing. -/
theorem discover_plugins_skips_faulty_candidate (st : PluginManager)
    (l1 l2 : List FileEntry) (fn e : String) :
    (discover_plugins (withDir st (l1 ++ ⟨fn, Candidate.loadFail e⟩ :: l2))).1 =
      (discover_plugins (withDir st (l1 ++ l2))).1 ∧
    ((discover_plugins (withDir st (l1 ++ ⟨fn, Candidate.loadFail e⟩ :: l2))).2).discovered_plugins =
      ((discover_plugins (withDir st (l1 ++ l2))).2).discovered_plugins := by
  have key : ((l1 ++ ⟨fn, Candidate.loadFail e⟩ :: l2).filter
        (fun f => isPyFile f.fname)).foldl scanFile
        (st.discovered_plugins, []) =
      ((l1 ++ l2).filter (fun f => isPyFile f.fname)).foldl scanFile
        (st.discovered_plugins, []) := by
    simp only [List.filter_append, List.filter_cons]
    by_cases hp : isPyFile fn = true
    · rw [if_pos hp, List.foldl_append, List.foldl_append, List.foldl_cons,
        scanFile_loadFail]
    · rw [if_neg hp]
  constructor
  · simp only [discover_plugins, withDir]
    rw [key]
  · simp only [discover_plugins, withDir]
    rw [key]

/-- C6: when two discovered candidates declare the same plugin name, the
definitions table ends up with exactly one entry for that name, bound to the
later-scanned implementation; the earlier one is silently replaced. -/
theorem discover_plugins_last_wins (st : PluginManager)
    (c1 c2 : PluginClass) (fn1 fn2 : String)
    (h1p : isPyFile fn1 = true) (h1u : isUnderscoreFile fn1 = false)
    (h2p : isPyFile fn2 = true) (h2u : isUnderscoreFile fn2 = false)
    (hname : c1.name = c2.name)
    (hnd : keysNodup st.discovered_plugins) :
    List.lookup c1.name
      (((discover_plugins (withDir st (twoFiles fn1 fn2 c1 c2))).2).discovered_plugins) =
      some c2 ∧
    countKey
      (((discover_plugins (withDir st (twoFiles fn1 fn2 c1 c2))).2).discovered_plugins)
      c1.name = 1 ∧
    (∀ x, (c1.name, x) ∈
      ((discover_plugins (withDir st (twoFiles fn1 fn2 c1 c2))).2).discovered_plugins →
      x = c2) := by
  obtain ⟨-, h2⟩ := discover_two_loads_eval st c1 c2 fn1 fn2 h1p h1u h2p h2u
  rw [h2, hname]
  have hnd2 : keysNodup
      (dictInsert (dictInsert st.discovered_plugins c2.name c1) c2.name c2) :=
    keysNodup_dictInsert _ _ _ (keysNodup_dictInsert _ _ _ hnd)
  refine ⟨lookup_dictInsert_self _ _ _, ?_, ?_⟩
  · exact countKey_eq_one_of_lookup_some _ _ hnd2
      (by rw [lookup_dictInsert_self]; rfl)
  · intro x hx
    have hl := lookup_eq_of_mem_of_nodup _ _ _ hnd2 hx
    rw [lookup_dictInsert_self] at hl
    exact ((Option.some.injEq ..).mp hl).symm

/-- C10: in the same duplicate-name scenario, the name sequence returned by
`discover_plugins` is not deduplicated: it contains the name once per
occurrence (here twice), even though the definitions table holds exactly one
entry for it — so the length of the returned list is not the number of
distinct discovered plugins. -/
theorem discover_plugins_names_not_dedup (st : PluginManager)
    (c1 c2 : PluginClass) (fn1 fn2 : String)
    (h1p : isPyFile fn1 = true) (h1u : isUnderscoreFile fn1 = false)
    (h2p : isPyFile fn2 = true) (h2u : isUnderscoreFile fn2 = false)
    (hname : c1.name = c2.name)
    (hnd : keysNodup st.discovered_plugins) :
    (discover_plugins (withDir st (twoFiles fn1 fn2 c1 c2))).1 =
      [c2.name, c2.name] ∧
    List.count c2.name
      (discover_plugins (withDir st (twoFiles fn1 fn2 c1 c2))).1 = 2 ∧
    countKey
      (((discover_plugins (withDir st (twoFiles fn1 fn2 c1 c2))).2).discovered_plugins)
      c2.name = 1 := by
  obtain ⟨h1, h2⟩ := discover_two_loads_eval st c1 c2 fn1 fn2 h1p h1u h2p h2u
  rw [hname] at h1 h2
  refine ⟨h1, by rw [h1]; simp [List.count_cons], ?_⟩
  rw [h2]
  exact countKey_eq_one_of_lookup_some _ _
    (keysNodup_dictInsert _ _ _ (keysNodup_dictInsert _ _ _ hnd))
    (by rw [lookup_dictInsert_self]; rfl)

/-- A class declaring the name `dup` (earlier-scanned duplicate). -/
def DupClassA : PluginClass :=
  { name := "dup", construct := Except.ok UppercasePluginImpl }

/-- A distinct class also declaring the name `dup` (later-scanned). -/
def DupClassB : PluginClass :=
  { name := "dup", construct := Except.ok ReversePluginImpl }

/-- A freshly constructed manager over an empty, existing directory. -/
def baseManager : PluginManager :=
  PluginManager.init (PluginDir.present [])

/-- Witness for C6: after scanning `a.py` (declaring `dup` via `DupClassA`)
then `b.py` (declaring `dup` via `DupClassB`), the definitions table binds
`dup` to `DupClassB` and holds exactly one entry for it. -/
theorem discover_plugins_last_wins_witness :
    List.lookup "dup"
      (((discover_plugins (withDir baseManager
        (twoFiles "a.py" "b.py" DupClassA DupClassB))).2).discovered_plugins) =
      some DupClassB ∧
    countKey
      (((discover_plugins (withDir baseManager
        (twoFiles "a.py" "b.py" DupClassA DupClassB))).2).discovered_plugins)
      "dup" = 1 :=
  ⟨(discover_plugins_last_wins baseManager DupClassA DupClassB "a.py" "b.py"
      rfl rfl rfl rfl rfl (by decide)).1,
   (discover_plugins_last_wins baseManager DupClassA DupClassB "a.py" "b.py"
      rfl rfl rfl rfl rfl (by decide)).2.1⟩

/-- Witness for C10: the same scan returns the name sequence
`["dup", "dup"]` while the definitions table holds one entry for `dup`. -/
theorem discover_plugins_names_not_dedup_witness :
    (discover_plugins (withDir baseManager
      (twoFiles "a.py" "b.py" DupClassA DupClassB))).1 = ["dup", "dup"] ∧
    countKey
      (((discover_plugins (withDir baseManager
        (twoFiles "a.py" "b.py" DupClassA DupClassB))).2).discovered_plugins)
      "dup" = 1 :=
  ⟨(discover_plugins_names_not_dedup baseManager DupClassA DupClassB
      "a.py" "b.py" rfl rfl rfl rfl rfl (by decide)).1,
   (discover_plugins_names_not_dedup baseManager DupClassA DupClassB
      "a.py" "b.py" rfl rfl rfl rfl rfl (by decide)).2.2⟩
